import Mathlib

/-!
Verification of the Super Smoother Filter (SSF) implementation in
pandas_ta/overlap/ssf.py, against its natural-language specification.

The numeric kernel is modelled over the real numbers: the source operates on
IEEE-754 doubles via numpy, and we use exact real arithmetic as the idealised
semantics of those operations (np.exp becomes Real.exp, np.cos becomes
Real.cos, both in radians, as in numpy).  Python runtime values that reach the
argument-validation code are modelled by the inductive type PyVal, which
records the runtime type of the value the way isinstance sees it (a Python
bool is an instance of int; an int is not an instance of float).  Python
float literals are modelled as rationals, cast into the reals at use sites.
A pandas Series is modelled as an index list together with a value list;
missing values (NaN markers) in a result series are modelled as Option.none,
following the specification, which treats absent samples as an explicit
optional value.
-/

namespace PandasTA

/-- Recurrence kernel of np_ssf (source lines 20-23): seed values at indices
0 and 1 are the input samples; from index 2 on, the two-pole recurrence with
coefficients a, b, c is applied, reading the two preceding outputs. -/
def np_ssf_rec (x : ℕ → ℝ) (a b c : ℝ) : ℕ → ℝ
  | 0 => x 0
  | 1 => x 1
  | (i + 2) =>
      0.5 * c * (x (i + 2) + x (i + 1)) + b * np_ssf_rec x a b c (i + 1)
        - a * a * np_ssf_rec x a b c i

/-- Recurrence kernel of np_ssf_everget (source lines 37-39): same shape,
with the coefficient written inline as a * a - b + 1, as in the source. -/
def np_ssf_everget_rec (x : ℕ → ℝ) (a b : ℝ) : ℕ → ℝ
  | 0 => x 0
  | 1 => x 1
  | (i + 2) =>
      0.5 * (a * a - b + 1) * (x (i + 2) + x (i + 1))
        + b * np_ssf_everget_rec x a b (i + 1)
        - a * a * np_ssf_everget_rec x a b i

/-- Ehlers Super Smoother Filter, variant A (np_ssf, source lines 11-25):
ratio = sqrt2 / n, a = exp(-pi * ratio), b = 2 * a * cos(180 * ratio)
(literal constant 180, radians, as np.cos computes in radians),
c = a * a - b + 1.  The result has one entry per input index; entries 0 and 1
are copies of the input (result starts as np.copy(x) and the loop starts
at 2). -/
noncomputable def np_ssf (x : List ℝ) (n : ℕ) (pi sqrt2 : ℝ) : List ℝ :=
  let m := x.length
  let ratio := sqrt2 / n
  let a := Real.exp (-pi * ratio)
  let b := 2 * a * Real.cos (180 * ratio)
  let c := a * a - b + 1
  (List.range m).map (np_ssf_rec (fun i => x.getD i 0) a b c)

/-- Ehlers Super Smoother Filter, variant B (np_ssf_everget, source lines
28-41): arg = pi * sqrt2 / n, a = exp(-arg), b = 2 * a * cos(arg). -/
noncomputable def np_ssf_everget (x : List ℝ) (n : ℕ) (pi sqrt2 : ℝ) : List ℝ :=
  let m := x.length
  let arg := pi * sqrt2 / n
  let a := Real.exp (-arg)
  let b := 2 * a * Real.cos arg
  (List.range m).map (np_ssf_everget_rec (fun i => x.getD i 0) a b)

/-- A Python runtime value as seen by the argument-validation code of ssf.
The constructor records the runtime type; float payloads are python float
literals, modelled as rationals. -/
inductive PyVal where
  | none : PyVal
  | bool (b : Bool) : PyVal
  | int (n : ℤ) : PyVal
  | float (q : ℚ) : PyVal
  | str (s : String) : PyVal
  deriving DecidableEq

/-- Python isinstance(v, int): true for int and for bool (bool is a subclass
of int in Python), false for float and everything else. -/
def py_isinstance_int : PyVal → Bool
  | .bool _ => true
  | .int _ => true
  | _ => false

/-- Python isinstance(v, bool). -/
def py_isinstance_bool : PyVal → Bool
  | .bool _ => true
  | _ => false

/-- Python isinstance(v, float): true only for float (an int is not an
instance of float). -/
def py_isinstance_float : PyVal → Bool
  | .float _ => true
  | _ => false

/-- Python int(v) for values that are instances of int (True is 1, False 0). -/
def py_int_val : PyVal → ℤ
  | .bool b => if b then 1 else 0
  | .int n => n
  | _ => 0

/-- Python float(v) for values that are instances of float. -/
def py_float_val : PyVal → ℚ
  | .float q => q
  | _ => 0

/-- Source line 81: length = int(length) if isinstance(length, int) and
length > 0 else 20. -/
def validate_length (length : PyVal) : ℕ :=
  if py_isinstance_int length = true ∧ 0 < py_int_val length
  then (py_int_val length).toNat else 20

/-- Source line 82: everget = bool(everget) if isinstance(everget, bool)
else False. -/
def validate_everget (everget : PyVal) : Bool :=
  match everget with
  | .bool b => b
  | _ => false

/-- Source lines 83-84: pi = float(pi) if isinstance(pi, float) and pi > 0
else 3.14159, and likewise for sqrt2 with default 1.414. -/
def validate_float (v : PyVal) (default : ℚ) : ℚ :=
  if py_isinstance_float v = true ∧ 0 < py_float_val v then py_float_val v
  else default

/-- An input pandas Series: an index paired positionally with numeric
samples. -/
structure PSeries where
  index : List ℤ
  values : List ℝ

/-- A result pandas Series: the values may hold missing markers (NaN in the
source, Option.none here), and name and category metadata are attached. -/
structure RSeries where
  index : List ℤ
  values : List (Option ℝ)
  name : String
  category : String

/-- Modelled from the spec: verify_series, the generic series-validation
routine, is not under src; the spec says it "ensures minimum length and
coerces input to a numeric sequence, failing by returning an absent result
when the input is unusable". -/
def verify_series (series : Option PSeries) (min_length : ℕ) : Option PSeries :=
  match series with
  | Option.none => Option.none
  | Option.some s =>
      if s.values.length < min_length then Option.none else Option.some s

/-- Modelled from the spec: get_offset, the offset-normalization helper, is
not under src; the spec says it "parses/validates an integer shift", with
default 0. -/
def get_offset (offset : Option ℤ) : ℤ :=
  offset.getD 0

/-- Modelled from the spec: pandas Series.shift, an external collaborator;
the spec says a "forward shift pads the head with missing markers, backward
shift pads the tail", with length and index preserved. -/
def series_shift (o : ℤ) (l : List (Option ℝ)) : List (Option ℝ) :=
  if 0 ≤ o then
    List.replicate (min o.toNat l.length) Option.none ++ l.take (l.length - o.toNat)
  else
    l.drop (-o).toNat ++ List.replicate (min (-o).toNat l.length) Option.none

/-- A pandas fill method passed through the fill_method kwarg. -/
inductive FillMethod where
  | ffill : FillMethod
  | bfill : FillMethod

/-- Forward fill: each missing entry takes the last preceding present value,
carried left to right. -/
def ffill_aux (carry : Option ℝ) : List (Option ℝ) → List (Option ℝ)
  | [] => []
  | o :: rest =>
      match o with
      | Option.some v => Option.some v :: ffill_aux (Option.some v) rest
      | Option.none => carry :: ffill_aux carry rest

/-- Modelled from the spec: pandas fillna(method=...), an external
collaborator performing forward or backward fill of missing values. -/
def apply_fill_method : FillMethod → List (Option ℝ) → List (Option ℝ)
  | .ffill, l => ffill_aux Option.none l
  | .bfill, l => (ffill_aux Option.none l.reverse).reverse

/-- Modelled from the spec: pandas fillna(value), an external collaborator
replacing every missing marker by the given value. -/
def apply_fillna (v : ℝ) (l : List (Option ℝ)) : List (Option ℝ) :=
  l.map (fun o => Option.some (o.getD v))

/-- Source lines 99-100: if offset is nonzero, shift the series by offset. -/
def post_offset (o : ℤ) (l : List (Option ℝ)) : List (Option ℝ) :=
  if o ≠ 0 then series_shift o l else l

/-- Source lines 103-104: if a fillna value was passed in kwargs, fill the
missing markers with it. -/
def post_fillna (fn : Option ℝ) (l : List (Option ℝ)) : List (Option ℝ) :=
  match fn with
  | Option.some v => apply_fillna v l
  | Option.none => l

/-- Source lines 105-106: if a fill_method was passed in kwargs, apply it. -/
def post_fill_method (fm : Option FillMethod) (l : List (Option ℝ)) :
    List (Option ℝ) :=
  match fm with
  | Option.some m => apply_fill_method m l
  | Option.none => l

/-- Driver ssf (source lines 44-113): validate arguments, verify the series,
dispatch on everget to one of the two kernels, rebuild an indexed series,
apply the offset shift and optional fills, and attach name and category. -/
noncomputable def ssf (close : Option PSeries) (length everget pi sqrt2 : PyVal)
    (offset : Option ℤ) (fillna : Option ℝ) (fill_method : Option FillMethod) :
    Option RSeries :=
  let length := validate_length length
  let everget := validate_everget everget
  let piv : ℝ := (validate_float pi 3.14159 : ℚ)
  let sqrt2v : ℝ := (validate_float sqrt2 1.414 : ℚ)
  let close := verify_series close length
  let offset := get_offset offset
  match close with
  | Option.none => Option.none
  | Option.some close =>
      let np_close := close.values
      let raw :=
        if everget then np_ssf_everget np_close length piv sqrt2v
        else np_ssf np_close length piv sqrt2v
      let s : List (Option ℝ) := raw.map Option.some
      let s := post_offset offset s
      let s := post_fillna fillna s
      let s := post_fill_method fill_method s
      Option.some
        { index := close.index
          values := s
          name := "SSF" ++ (if everget then "e" else "") ++ "_" ++ toString length
          category := "overlap" }

/-! Helper lemmas shared by the claim theorems. -/

/-- Element access into a map over List.range. -/
lemma map_range_getD (f : ℕ → ℝ) (m i : ℕ) (h : i < m) :
    ((List.range m).map f).getD i 0 = f i := by
  rw [List.getD_eq_getElem?_getD, List.getElem?_map, List.getElem?_range h]
  rfl

/-- The variant A output at an in-range index is the recurrence kernel value
with the coefficients computed from n, pi, sqrt2. -/
lemma np_ssf_getD (x : List ℝ) (n : ℕ) (pi sqrt2 : ℝ) (i : ℕ)
    (h : i < x.length) :
    (np_ssf x n pi sqrt2).getD i 0
      = np_ssf_rec (fun j => x.getD j 0)
          (Real.exp (-pi * (sqrt2 / n)))
          (2 * Real.exp (-pi * (sqrt2 / n)) * Real.cos (180 * (sqrt2 / n)))
          (Real.exp (-pi * (sqrt2 / n)) * Real.exp (-pi * (sqrt2 / n))
            - 2 * Real.exp (-pi * (sqrt2 / n)) * Real.cos (180 * (sqrt2 / n))
            + 1) i := by
  simp only [np_ssf]
  exact map_range_getD _ _ _ h

/-- The variant B output at an in-range index is the Everget recurrence
kernel value with the coefficients computed from n, pi, sqrt2. -/
lemma np_ssf_everget_getD (x : List ℝ) (n : ℕ) (pi sqrt2 : ℝ) (i : ℕ)
    (h : i < x.length) :
    (np_ssf_everget x n pi sqrt2).getD i 0
      = np_ssf_everget_rec (fun j => x.getD j 0)
          (Real.exp (-(pi * sqrt2 / n)))
          (2 * Real.exp (-(pi * sqrt2 / n)) * Real.cos (pi * sqrt2 / n)) i := by
  simp only [np_ssf_everget]
  exact map_range_getD _ _ _ h

lemma length_np_ssf (x : List ℝ) (n : ℕ) (pi sqrt2 : ℝ) :
    (np_ssf x n pi sqrt2).length = x.length := by
  simp [np_ssf]

lemma length_np_ssf_everget (x : List ℝ) (n : ℕ) (pi sqrt2 : ℝ) :
    (np_ssf_everget x n pi sqrt2).length = x.length := by
  simp [np_ssf_everget]

lemma length_series_shift (o : ℤ) (l : List (Option ℝ)) :
    (series_shift o l).length = l.length := by
  unfold series_shift
  split <;> simp <;> omega

lemma series_shift_zero (l : List (Option ℝ)) : series_shift 0 l = l := by
  simp [series_shift]

lemma length_ffill_aux (carry : Option ℝ) (l : List (Option ℝ)) :
    (ffill_aux carry l).length = l.length := by
  induction l generalizing carry with
  | nil => rfl
  | cons o rest ih => cases o <;> simp [ffill_aux, ih]

lemma length_post_offset (o : ℤ) (l : List (Option ℝ)) :
    (post_offset o l).length = l.length := by
  unfold post_offset
  split <;> simp [length_series_shift]

lemma length_post_fillna (fn : Option ℝ) (l : List (Option ℝ)) :
    (post_fillna fn l).length = l.length := by
  cases fn <;> simp [post_fillna, apply_fillna]

lemma length_post_fill_method (fm : Option FillMethod) (l : List (Option ℝ)) :
    (post_fill_method fm l).length = l.length := by
  rcases fm with _ | m
  · rfl
  · cases m <;> simp [post_fill_method, apply_fill_method, length_ffill_aux]

/-- Unfolding of the driver on a series that passes validation: the result is
the dispatched kernel output wrapped as an indexed, named series with the
post-processing chain applied. -/
lemma ssf_some (s : PSeries) (lv ev piv sqv : PyVal) (off : Option ℤ)
    (fn : Option ℝ) (fm : Option FillMethod)
    (h : validate_length lv ≤ s.values.length) :
    ssf (Option.some s) lv ev piv sqv off fn fm
      = Option.some
          { index := s.index
            values :=
              post_fill_method fm (post_fillna fn (post_offset (get_offset off)
                (((if validate_everget ev then
                      np_ssf_everget s.values (validate_length lv)
                        ((validate_float piv 3.14159 : ℚ) : ℝ)
                        ((validate_float sqv 1.414 : ℚ) : ℝ)
                    else
                      np_ssf s.values (validate_length lv)
                        ((validate_float piv 3.14159 : ℚ) : ℝ)
                        ((validate_float sqv 1.414 : ℚ) : ℝ))).map Option.some)))
            name := "SSF" ++ (if validate_everget ev then "e" else "") ++ "_"
                      ++ toString (validate_length lv)
            category := "overlap" } := by
  have hv : verify_series (Option.some s) (validate_length lv)
      = Option.some s := by
    simp [verify_series, Nat.not_lt.mpr h]
  simp only [ssf, hv]

/-! Claim theorems. -/

/-- C1: Variant A (default, everget=false): for every numeric input sequence
x of length m and validated parameters n, pi_const, sqrt2_const, with
ratio = sqrt2_const/n, a = exp(-pi_const*ratio), b = 2*a*cos(180*ratio)
(literal constant 180), c = a*a - b + 1, every output element at index i in
[2, m) equals 0.5*c*(x[i] + x[i-1]) + b*result[i-1] - a*a*result[i-2]. -/
theorem ssf_variantA_recurrence (x : List ℝ) (n : ℕ) (pi sqrt2 : ℝ)
    (hn : 0 < n) (hpi : 0 < pi) (hsqrt2 : 0 < sqrt2)
    (i : ℕ) (h2 : 2 ≤ i) (hm : i < x.length) :
    (np_ssf x n pi sqrt2).getD i 0
      = 0.5 * (Real.exp (-pi * (sqrt2 / n)) * Real.exp (-pi * (sqrt2 / n))
            - 2 * Real.exp (-pi * (sqrt2 / n)) * Real.cos (180 * (sqrt2 / n))
            + 1)
          * (x.getD i 0 + x.getD (i - 1) 0)
        + 2 * Real.exp (-pi * (sqrt2 / n)) * Real.cos (180 * (sqrt2 / n))
          * (np_ssf x n pi sqrt2).getD (i - 1) 0
        - Real.exp (-pi * (sqrt2 / n)) * Real.exp (-pi * (sqrt2 / n))
          * (np_ssf x n pi sqrt2).getD (i - 2) 0 := by
  obtain ⟨k, rfl⟩ : ∃ k, i = k + 2 := ⟨i - 2, by omega⟩
  rw [np_ssf_getD x n pi sqrt2 (k + 2) hm,
    np_ssf_getD x n pi sqrt2 (k + 2 - 1) (by omega),
    np_ssf_getD x n pi sqrt2 (k + 2 - 2) (by omega)]
  have e1 : k + 2 - 1 = k + 1 := by omega
  have e2 : k + 2 - 2 = k := by omega
  rw [e1, e2]
  simp only [np_ssf_rec]

/-- Witness for C1 at the concrete input x = [1, 2, 3], n = 20,
pi = 3.14159, sqrt2 = 1.414, i = 2. -/
theorem ssf_variantA_recurrence_witness :
    (np_ssf [1, 2, 3] 20 3.14159 1.414).getD 2 0
      = 0.5 * (Real.exp (-3.14159 * (1.414 / (20 : ℕ)))
            * Real.exp (-3.14159 * (1.414 / (20 : ℕ)))
            - 2 * Real.exp (-3.14159 * (1.414 / (20 : ℕ)))
              * Real.cos (180 * (1.414 / (20 : ℕ)))
            + 1)
          * (([1, 2, 3] : List ℝ).getD 2 0 + ([1, 2, 3] : List ℝ).getD (2 - 1) 0)
        + 2 * Real.exp (-3.14159 * (1.414 / (20 : ℕ)))
          * Real.cos (180 * (1.414 / (20 : ℕ)))
          * (np_ssf [1, 2, 3] 20 3.14159 1.414).getD (2 - 1) 0
        - Real.exp (-3.14159 * (1.414 / (20 : ℕ)))
          * Real.exp (-3.14159 * (1.414 / (20 : ℕ)))
          * (np_ssf [1, 2, 3] 20 3.14159 1.414).getD (2 - 2) 0 :=
  ssf_variantA_recurrence [1, 2, 3] 20 3.14159 1.414 (by norm_num)
    (by norm_num) (by norm_num) 2 (by norm_num) (by simp)

/-- C3: Seed identity: for every input series x with at least two samples,
both variants return an output whose element 0 equals x[0] and whose
element 1 equals x[1], exactly. -/
theorem ssf_seed_identity (x : List ℝ) (n : ℕ) (pi sqrt2 : ℝ)
    (h : 2 ≤ x.length) :
    (np_ssf x n pi sqrt2).getD 0 0 = x.getD 0 0
    ∧ (np_ssf x n pi sqrt2).getD 1 0 = x.getD 1 0
    ∧ (np_ssf_everget x n pi sqrt2).getD 0 0 = x.getD 0 0
    ∧ (np_ssf_everget x n pi sqrt2).getD 1 0 = x.getD 1 0 := by
  rw [np_ssf_getD x n pi sqrt2 0 (by omega),
    np_ssf_getD x n pi sqrt2 1 (by omega),
    np_ssf_everget_getD x n pi sqrt2 0 (by omega),
    np_ssf_everget_getD x n pi sqrt2 1 (by omega)]
  exact ⟨rfl, rfl, rfl, rfl⟩

/-- Witness for C3 at the concrete input x = [5, 7, 9], n = 3. -/
theorem ssf_seed_identity_witness :
    (np_ssf [5, 7, 9] 3 3.14159 1.414).getD 0 0 = ([5, 7, 9] : List ℝ).getD 0 0
    ∧ (np_ssf [5, 7, 9] 3 3.14159 1.414).getD 1 0 = ([5, 7, 9] : List ℝ).getD 1 0
    ∧ (np_ssf_everget [5, 7, 9] 3 3.14159 1.414).getD 0 0
        = ([5, 7, 9] : List ℝ).getD 0 0
    ∧ (np_ssf_everget [5, 7, 9] 3 3.14159 1.414).getD 1 0
        = ([5, 7, 9] : List ℝ).getD 1 0 :=
  ssf_seed_identity [5, 7, 9] 3 3.14159 1.414 (by simp)

/-- C2: Variant B (Everget): the driver dispatches to the Everget recurrence
exactly when everget is true, and that recurrence, with
arg = pi_const*sqrt2_const/n, a = exp(-arg), b = 2*a*cos(arg), yields for
every index i in [2, m):
result[i] = 0.5*(a*a - b + 1)*(x[i] + x[i-1]) + b*result[i-1]
  - a*a*result[i-2]. -/
theorem ssf_everget_dispatch_recurrence :
    (∀ ev : PyVal, validate_everget ev = true ↔ ev = PyVal.bool true)
    ∧ (∀ (s : PSeries) (lv piv sqv ev : PyVal),
        validate_length lv ≤ s.values.length →
        (ssf (Option.some s) lv ev piv sqv Option.none Option.none
            Option.none).map RSeries.values
          = Option.some
              ((if validate_everget ev then
                  np_ssf_everget s.values (validate_length lv)
                    ((validate_float piv 3.14159 : ℚ) : ℝ)
                    ((validate_float sqv 1.414 : ℚ) : ℝ)
                else
                  np_ssf s.values (validate_length lv)
                    ((validate_float piv 3.14159 : ℚ) : ℝ)
                    ((validate_float sqv 1.414 : ℚ) : ℝ)).map Option.some))
    ∧ (∀ (x : List ℝ) (n : ℕ) (pi sqrt2 : ℝ), 0 < n → 0 < pi → 0 < sqrt2 →
        ∀ i : ℕ, 2 ≤ i → i < x.length →
        (np_ssf_everget x n pi sqrt2).getD i 0
          = 0.5 * (Real.exp (-(pi * sqrt2 / n)) * Real.exp (-(pi * sqrt2 / n))
                - 2 * Real.exp (-(pi * sqrt2 / n)) * Real.cos (pi * sqrt2 / n)
                + 1)
              * (x.getD i 0 + x.getD (i - 1) 0)
            + 2 * Real.exp (-(pi * sqrt2 / n)) * Real.cos (pi * sqrt2 / n)
              * (np_ssf_everget x n pi sqrt2).getD (i - 1) 0
            - Real.exp (-(pi * sqrt2 / n)) * Real.exp (-(pi * sqrt2 / n))
              * (np_ssf_everget x n pi sqrt2).getD (i - 2) 0) := by
  refine ⟨?_, ?_, ?_⟩
  · intro ev
    cases ev <;> simp [validate_everget]
  · intro s lv piv sqv ev h
    rw [ssf_some s lv ev piv sqv Option.none Option.none Option.none h]
    simp [post_fill_method, post_fillna, post_offset, get_offset]
  · intro x n pi sqrt2 hn hpi hs i h2 hm
    obtain ⟨k, rfl⟩ : ∃ k, i = k + 2 := ⟨i - 2, by omega⟩
    rw [np_ssf_everget_getD x n pi sqrt2 (k + 2) hm,
      np_ssf_everget_getD x n pi sqrt2 (k + 2 - 1) (by omega),
      np_ssf_everget_getD x n pi sqrt2 (k + 2 - 2) (by omega)]
    have e1 : k + 2 - 1 = k + 1 := by omega
    have e2 : k + 2 - 2 = k := by omega
    rw [e1, e2]
    simp only [np_ssf_everget_rec]

/-- Witness for C2: dispatch at a concrete one-sample series with
everget = True, and the Everget recurrence at x = [1, 2, 3], n = 20,
i = 2. -/
theorem ssf_everget_dispatch_recurrence_witness :
    ((ssf (Option.some (PSeries.mk [0] [0])) (PyVal.int 1) (PyVal.bool true)
        PyVal.none PyVal.none Option.none Option.none Option.none).map
          RSeries.values
      = Option.some
          ((if validate_everget (PyVal.bool true) then
              np_ssf_everget [0] (validate_length (PyVal.int 1))
                ((validate_float PyVal.none 3.14159 : ℚ) : ℝ)
                ((validate_float PyVal.none 1.414 : ℚ) : ℝ)
            else
              np_ssf [0] (validate_length (PyVal.int 1))
                ((validate_float PyVal.none 3.14159 : ℚ) : ℝ)
                ((validate_float PyVal.none 1.414 : ℚ) : ℝ)).map Option.some))
    ∧ (np_ssf_everget [1, 2, 3] 20 3.14159 1.414).getD 2 0
        = 0.5 * (Real.exp (-(3.14159 * 1.414 / (20 : ℕ)))
              * Real.exp (-(3.14159 * 1.414 / (20 : ℕ)))
              - 2 * Real.exp (-(3.14159 * 1.414 / (20 : ℕ)))
                * Real.cos (3.14159 * 1.414 / (20 : ℕ)) + 1)
            * (([1, 2, 3] : List ℝ).getD 2 0 + ([1, 2, 3] : List ℝ).getD (2 - 1) 0)
          + 2 * Real.exp (-(3.14159 * 1.414 / (20 : ℕ)))
            * Real.cos (3.14159 * 1.414 / (20 : ℕ))
            * (np_ssf_everget [1, 2, 3] 20 3.14159 1.414).getD (2 - 1) 0
          - Real.exp (-(3.14159 * 1.414 / (20 : ℕ)))
            * Real.exp (-(3.14159 * 1.414 / (20 : ℕ)))
            * (np_ssf_everget [1, 2, 3] 20 3.14159 1.414).getD (2 - 2) 0 :=
  ⟨ssf_everget_dispatch_recurrence.2.1 (PSeries.mk [0] [0]) (PyVal.int 1)
      PyVal.none PyVal.none (PyVal.bool true) (by decide),
    ssf_everget_dispatch_recurrence.2.2 [1, 2, 3] 20 3.14159 1.414
      (by norm_num) (by norm_num) (by norm_num) 2 (by norm_num) (by simp)⟩

/-- C4: Length and index invariance: for every valid input series of length
m at least the validated length, the series returned by ssf has length
exactly m and carries the same index as the input, for every offset and
fill option. -/
theorem ssf_length_index_invariance (s : PSeries) (lv ev piv sqv : PyVal)
    (off : Option ℤ) (fn : Option ℝ) (fm : Option FillMethod)
    (h : validate_length lv ≤ s.values.length) :
    ∃ r : RSeries, ssf (Option.some s) lv ev piv sqv off fn fm = Option.some r
      ∧ r.values.length = s.values.length ∧ r.index = s.index := by
  refine ⟨_, ssf_some s lv ev piv sqv off fn fm h, ?_, rfl⟩
  simp only [length_post_fill_method, length_post_fillna, length_post_offset,
    List.length_map]
  split <;> simp [length_np_ssf, length_np_ssf_everget]

/-- Witness for C4 at a concrete one-sample series with length = 1. -/
theorem ssf_length_index_invariance_witness :
    ∃ r : RSeries,
      ssf (Option.some (PSeries.mk [7] [4])) (PyVal.int 1) PyVal.none
          PyVal.none PyVal.none Option.none Option.none Option.none
        = Option.some r
      ∧ r.values.length = (PSeries.mk [7] [4]).values.length
      ∧ r.index = (PSeries.mk [7] [4]).index :=
  ssf_length_index_invariance (PSeries.mk [7] [4]) (PyVal.int 1) PyVal.none
    PyVal.none PyVal.none Option.none Option.none Option.none (by decide)

/-- C5: Absent-input propagation: for every input series shorter than the
validated length, ssf returns an absent result; it never raises (all
functions here are total) and never returns a partial series. -/
theorem ssf_absent_input (s : PSeries) (lv ev piv sqv : PyVal)
    (off : Option ℤ) (fn : Option ℝ) (fm : Option FillMethod)
    (h : s.values.length < validate_length lv) :
    ssf (Option.some s) lv ev piv sqv off fn fm = Option.none := by
  have hv : verify_series (Option.some s) (validate_length lv)
      = Option.none := by
    simp [verify_series, h]
  simp only [ssf, hv]

/-- Witness for C5: the empty series is shorter than the default length
20, so ssf declines. -/
theorem ssf_absent_input_witness :
    ssf (Option.some (PSeries.mk [] [])) PyVal.none PyVal.none PyVal.none
        PyVal.none Option.none Option.none Option.none = Option.none :=
  ssf_absent_input (PSeries.mk [] []) PyVal.none PyVal.none PyVal.none
    PyVal.none Option.none Option.none Option.none (by decide)

/-- C6: Default clamping: ssf with length = -5 returns a result identical to
ssf with length = 20, for every series and remaining arguments; in general
any length value that is not a positive integer is silently replaced by the
default 20 (the validation is total, so no error is ever raised). -/
theorem ssf_default_length_clamping :
    (∀ (close : Option PSeries) (ev piv sqv : PyVal) (off : Option ℤ)
        (fn : Option ℝ) (fm : Option FillMethod),
      ssf close (PyVal.int (-5)) ev piv sqv off fn fm
        = ssf close (PyVal.int 20) ev piv sqv off fn fm)
    ∧ (∀ v : PyVal, ¬(py_isinstance_int v = true ∧ 0 < py_int_val v) →
        validate_length v = 20) := by
  constructor
  · intro close ev piv sqv off fn fm
    have h20 : validate_length (PyVal.int (-5))
        = validate_length (PyVal.int 20) := by decide
    simp only [ssf, h20]
  · intro v hv
    unfold validate_length
    rw [if_neg hv]

/-- Witness for C6: a concrete invocation with length -5 versus 20, and the
clamping of the non-integer length value None. -/
theorem ssf_default_length_clamping_witness :
    ssf Option.none (PyVal.int (-5)) PyVal.none PyVal.none PyVal.none
        Option.none Option.none Option.none
      = ssf Option.none (PyVal.int 20) PyVal.none PyVal.none PyVal.none
          Option.none Option.none Option.none
    ∧ validate_length PyVal.none = 20 :=
  ⟨ssf_default_length_clamping.1 Option.none PyVal.none PyVal.none PyVal.none
      Option.none Option.none Option.none,
    ssf_default_length_clamping.2 PyVal.none (by decide)⟩

lemma series_shift_head_none (o : ℤ) (l : List (Option ℝ)) (i : ℕ)
    (ho : 0 ≤ o) (hi : i < min o.toNat l.length) :
    (series_shift o l)[i]? = Option.some Option.none := by
  unfold series_shift
  rw [if_pos ho, List.getElem?_append]
  rw [if_pos (by simpa using hi)]
  rw [List.getElem?_replicate, if_pos hi]

/-- C7: Offset shift: for every valid input series, ssf with a nonzero
offset equals the offset-0 result with its values shifted by that offset,
and with offset 2 the first two positions of the result are absent. -/
theorem ssf_offset_shift (s : PSeries) (lv ev piv sqv : PyVal) (o : ℤ)
    (h : validate_length lv ≤ s.values.length) :
    ssf (Option.some s) lv ev piv sqv (Option.some o) Option.none Option.none
      = (ssf (Option.some s) lv ev piv sqv (Option.some 0) Option.none
          Option.none).map
            (fun r => { r with values := series_shift o r.values })
    ∧ (∀ i : ℕ, i < 2 → i < s.values.length →
        (ssf (Option.some s) lv ev piv sqv (Option.some 2) Option.none
            Option.none).bind (fun r => r.values[i]?)
          = Option.some Option.none) := by
  constructor
  · rw [ssf_some s lv ev piv sqv (Option.some o) Option.none Option.none h,
      ssf_some s lv ev piv sqv (Option.some 0) Option.none Option.none h]
    simp only [Option.map_some']
    congr 1
    simp only [post_fill_method, post_fillna, get_offset, Option.getD_some]
    unfold post_offset
    by_cases ho : o = 0
    · subst ho
      simp [series_shift_zero]
    · simp [ho, series_shift_zero]
  · intro i hi2 him
    rw [ssf_some s lv ev piv sqv (Option.some 2) Option.none Option.none h]
    have hlen : (((if validate_everget ev then
        np_ssf_everget s.values (validate_length lv)
          ((validate_float piv 3.14159 : ℚ) : ℝ)
          ((validate_float sqv 1.414 : ℚ) : ℝ)
      else
        np_ssf s.values (validate_length lv)
          ((validate_float piv 3.14159 : ℚ) : ℝ)
          ((validate_float sqv 1.414 : ℚ) : ℝ))).map Option.some).length
        = s.values.length := by
      split <;> simp [length_np_ssf, length_np_ssf_everget]
    simp only [Option.some_bind, post_fill_method, post_fillna, get_offset,
      Option.getD_some, post_offset]
    rw [if_pos (by norm_num)]
    apply series_shift_head_none 2 _ i (by norm_num)
    rw [hlen]
    omega

/-- Witness for C7 at a concrete three-sample series, offset 2, head
index 0. -/
theorem ssf_offset_shift_witness :
    (ssf (Option.some (PSeries.mk [0, 1, 2] [5, 6, 7])) (PyVal.int 1)
        PyVal.none PyVal.none PyVal.none (Option.some 2) Option.none
        Option.none
      = (ssf (Option.some (PSeries.mk [0, 1, 2] [5, 6, 7])) (PyVal.int 1)
          PyVal.none PyVal.none PyVal.none (Option.some 0) Option.none
          Option.none).map
            (fun r => { r with values := series_shift 2 r.values }))
    ∧ (ssf (Option.some (PSeries.mk [0, 1, 2] [5, 6, 7])) (PyVal.int 1)
        PyVal.none PyVal.none PyVal.none (Option.some 2) Option.none
        Option.none).bind (fun r => r.values[0]?) = Option.some Option.none :=
  ⟨(ssf_offset_shift (PSeries.mk [0, 1, 2] [5, 6, 7]) (PyVal.int 1)
      PyVal.none PyVal.none PyVal.none 2 (by decide)).1,
    (ssf_offset_shift (PSeries.mk [0, 1, 2] [5, 6, 7]) (PyVal.int 1)
      PyVal.none PyVal.none PyVal.none 2 (by decide)).2 0 (by decide)
      (by decide)⟩

/-- C9: Naming and category metadata: every successful invocation returns a
series named "SSF_" followed by the validated length when everget is false,
"SSFe_" followed by the validated length when everget is true, with category
"overlap". -/
theorem ssf_naming_category (s : PSeries) (lv ev piv sqv : PyVal)
    (off : Option ℤ) (fn : Option ℝ) (fm : Option FillMethod)
    (h : validate_length lv ≤ s.values.length) :
    (ssf (Option.some s) lv ev piv sqv off fn fm).map
        (fun r => (r.name, r.category))
      = Option.some
          ((if validate_everget ev then "SSFe_" else "SSF_")
            ++ toString (validate_length lv), "overlap") := by
  rw [ssf_some s lv ev piv sqv off fn fm h]
  rcases Bool.dichotomy (validate_everget ev) with hb | hb <;> rw [hb] <;> rfl

/-- Witness for C9: a twenty-sample series with the default length gives the
name SSF_20 and category overlap. -/
theorem ssf_naming_category_witness :
    (ssf (Option.some (PSeries.mk (List.replicate 20 0) (List.replicate 20 0)))
        PyVal.none PyVal.none PyVal.none PyVal.none Option.none Option.none
        Option.none).map (fun r => (r.name, r.category))
      = Option.some ("SSF_20", "overlap") := by
  rw [ssf_naming_category (PSeries.mk (List.replicate 20 0)
    (List.replicate 20 0)) PyVal.none PyVal.none PyVal.none PyVal.none
    Option.none Option.none Option.none (by decide)]
  rfl

/-- C10: Implicit type-based coercion of constants: supplying pi or sqrt2 as
an integer-typed value makes the driver behave as if the argument were not
supplied at all, because the validation tests the runtime floating-point
type: validate_float on an int always yields the default, whatever the
sign of the int. -/
theorem ssf_integer_constant_coercion :
    (∀ (close : Option PSeries) (lv ev sqv : PyVal) (off : Option ℤ)
        (fn : Option ℝ) (fm : Option FillMethod) (n : ℤ),
      ssf close lv ev (PyVal.int n) sqv off fn fm
        = ssf close lv ev PyVal.none sqv off fn fm)
    ∧ (∀ (close : Option PSeries) (lv ev piv : PyVal) (off : Option ℤ)
        (fn : Option ℝ) (fm : Option FillMethod) (n : ℤ),
      ssf close lv ev piv (PyVal.int n) off fn fm
        = ssf close lv ev piv PyVal.none off fn fm)
    ∧ (∀ (n : ℤ) (d : ℚ), validate_float (PyVal.int n) d = d) := by
  have hint : ∀ (n : ℤ) (d : ℚ), validate_float (PyVal.int n) d = d := by
    intro n d
    simp [validate_float, py_isinstance_float]
  have hnone : ∀ d : ℚ, validate_float PyVal.none d = d := by
    intro d
    simp [validate_float, py_isinstance_float]
  refine ⟨?_, ?_, hint⟩
  · intro close lv ev sqv off fn fm n
    simp only [ssf, hint, hnone]
  · intro close lv ev piv off fn fm n
    simp only [ssf, hint, hnone]

lemma np_ssf_rec_two (x : ℕ → ℝ) (a b c : ℝ) :
    np_ssf_rec x a b c 2 = 0.5 * c * (x 2 + x 1) + b * x 1 - a * a * x 0 := rfl

lemma np_ssf_everget_rec_two (x : ℕ → ℝ) (a b : ℝ) :
    np_ssf_everget_rec x a b 2
      = 0.5 * (a * a - b + 1) * (x 2 + x 1) + b * x 1 - a * a * x 0 := rfl

/-- Variant A evaluated at the third sample of the impulse input
[0, 0, 1], with length 20 and the default truncated constants. -/
lemma np_ssf_at_impulse :
    (np_ssf [0, 0, 1] 20 3.14159 1.414).getD 2 0
      = 0.5 * (Real.exp (-(0.222110413 : ℝ)) * Real.exp (-(0.222110413 : ℝ))
          - 2 * Real.exp (-(0.222110413 : ℝ)) * Real.cos (12.726 : ℝ) + 1) := by
  rw [np_ssf_getD _ _ _ _ 2 (by simp), np_ssf_rec_two]
  have h1 : (-3.14159 * ((1.414 : ℝ) / ((20 : ℕ) : ℝ))) = -(0.222110413 : ℝ) := by
    norm_num
  have h2 : ((180 : ℝ) * ((1.414 : ℝ) / ((20 : ℕ) : ℝ))) = (12.726 : ℝ) := by
    norm_num
  rw [h1, h2]
  norm_num

/-- Variant B evaluated at the third sample of the impulse input
[0, 0, 1], with length 20 and the default truncated constants. -/
lemma np_ssf_everget_at_impulse :
    (np_ssf_everget [0, 0, 1] 20 3.14159 1.414).getD 2 0
      = 0.5 * (Real.exp (-(0.222110413 : ℝ)) * Real.exp (-(0.222110413 : ℝ))
          - 2 * Real.exp (-(0.222110413 : ℝ)) * Real.cos (0.222110413 : ℝ)
          + 1) := by
  rw [np_ssf_everget_getD _ _ _ _ 2 (by simp), np_ssf_everget_rec_two]
  have h1 : (-((3.14159 : ℝ) * 1.414 / ((20 : ℕ) : ℝ))) = -(0.222110413 : ℝ) := by
    norm_num
  have h2 : ((3.14159 : ℝ) * 1.414 / ((20 : ℕ) : ℝ)) = (0.222110413 : ℝ) := by
    norm_num
  rw [h1, h2]
  norm_num

/-- The two cosine arguments that the variants produce for n = 20 and the
default constants have different cosines: 12.726 reduced modulo the true
period 2*pi lands near 0.1596, below 0.222110413, and cos is strictly
decreasing on [0, pi]. -/
lemma cos_args_differ :
    Real.cos (0.222110413 : ℝ) < Real.cos (12.726 : ℝ) := by
  have hper : Real.cos ((12.726 : ℝ) - 2 * (2 * Real.pi)) = Real.cos 12.726 := by
    have h := Real.cos_sub_int_mul_two_pi (12.726 : ℝ) 2
    push_cast at h
    exact h
  have hgt := Real.pi_gt_d6
  have hlt := Real.pi_lt_d6
  have h0 : (0 : ℝ) ≤ 12.726 - 2 * (2 * Real.pi) := by linarith
  have hvpi : (0.222110413 : ℝ) ≤ Real.pi := by linarith
  have huv : 12.726 - 2 * (2 * Real.pi) < 0.222110413 := by linarith
  have := Real.cos_lt_cos_of_nonneg_of_le_pi h0 hvpi huv
  linarith [hper ▸ this]

/-- C8: Variant divergence: with the default constants pi = 3.14159 and
sqrt2 = 1.414, there is a valid input series and length for which the two
variants produce different outputs. -/
theorem ssf_variant_divergence :
    ∃ (x : List ℝ) (n : ℕ), 0 < n ∧
      np_ssf x n 3.14159 1.414 ≠ np_ssf_everget x n 3.14159 1.414 := by
  refine ⟨[0, 0, 1], 20, by norm_num, ?_⟩
  intro heq
  have h2 : (np_ssf [0, 0, 1] 20 3.14159 1.414).getD 2 0
      = (np_ssf_everget [0, 0, 1] 20 3.14159 1.414).getD 2 0 := by rw [heq]
  rw [np_ssf_at_impulse, np_ssf_everget_at_impulse] at h2
  have hapos : (0 : ℝ) < Real.exp (-(0.222110413 : ℝ)) := Real.exp_pos _
  have hclt := cos_args_differ
  nlinarith [mul_lt_mul_of_pos_left hclt hapos]

end PandasTA
